import Mathlib

/-!
Verification development for the discovery-board / embedding-service
orchestration code base.

Each section shallowly embeds one part of the Python source:

* DecisionTools        — discovery-board-mcp/tools/decisions.py
* NoteEvidenceTools    — discovery-board-mcp/tools/evidence.py
* ContradictionAgent   — embedding-service/agents/contradiction_detector.py
* DecayAgent           — embedding-service/agents/decay_monitor.py
* GapNodes             — embedding-service/graphs/nodes/gap_analyzer.py and
                         the per-note gap scan in graphs/session_analysis.py
* EvidenceLinkGraph    — embedding-service/graphs/evidence_link.py
* SessionGraph         — embedding-service/graphs/session_analysis.py wiring

Numbers are modelled with Nat / Int / Rat; Python None and absent dict keys
are modelled with Option; Python truthiness is made explicit where the code
relies on it.
-/

set_option maxRecDepth 8000

namespace PyModel

/-- Python round-half-to-even of a rational to the nearest integer,
as computed by the built-in round function on the exact value. -/
def roundHalfEven (q : ℚ) : ℤ :=
  let f : ℤ := ⌊q⌋
  let frac : ℚ := q - (f : ℚ)
  if frac < 1/2 then f
  else if 1/2 < frac then f + 1
  else if Even f then f else f + 1

/-- Python round(x, 2): round to two decimal places, ties to even. -/
def round2 (q : ℚ) : ℚ := (roundHalfEven (q * 100) : ℚ) / 100

/-- Python expression a or b where a is an optional number:
None and 0 are falsy and fall through to the default. -/
def orQ (o : Option ℚ) (d : ℚ) : ℚ :=
  match o with
  | none => d
  | some v => if v = 0 then d else v

/-- Python expression a or b on two optional values (None is falsy). -/
def orOpt (a b : Option α) : Option α :=
  match a with
  | some x => some x
  | none => b

/-- Python truthiness of an optional string: None and the empty string
are falsy. -/
def truthyStr (o : Option String) : Bool :=
  match o with
  | none => false
  | some s => s ≠ ""

lemma roundHalfEven_eq_low (n : ℤ) (q : ℚ) (h1 : (n : ℚ) ≤ q)
    (h2 : q < (n : ℚ) + 1/2) : roundHalfEven q = n := by
  have hf : ⌊q⌋ = n := by
    rw [Int.floor_eq_iff]
    refine ⟨h1, ?_⟩
    linarith
  rw [roundHalfEven]
  simp only [hf]
  rw [if_pos]
  linarith

lemma roundHalfEven_eq_high (n : ℤ) (q : ℚ) (h1 : (n : ℚ) + 1/2 < q)
    (h2 : q < (n : ℚ) + 1) : roundHalfEven q = n + 1 := by
  have hf : ⌊q⌋ = n := by
    rw [Int.floor_eq_iff]
    constructor
    · linarith
    · linarith
  rw [roundHalfEven]
  simp only [hf]
  rw [if_neg, if_pos]
  · linarith
  · linarith

lemma round2_intCast (n : ℤ) : round2 ((n : ℚ)) = (n : ℚ) := by
  rw [round2]
  have h : roundHalfEven ((n : ℚ) * 100) = 100 * n := by
    refine roundHalfEven_eq_low (100 * n) _ ?_ ?_
    · push_cast
      linarith
    · push_cast
      linarith
  rw [h]
  push_cast
  ring

lemma round2_zero : round2 0 = 0 := by
  have h := round2_intCast 0
  simpa using h

end PyModel

namespace DecisionTools

/-! Embedding of discovery-board-mcp/tools/decisions.py.
A link row of the evidence_decision_links table as returned by the
select in _refresh_decision_evidence_stats: the joined evidence_bank
record may be absent (broken join), and its computed_strength column
may be null. -/

/-- The joined evidence_bank record of a link row: only the
computed_strength column is selected; a null column is none. -/
structure EvidenceBankRef where
  computed_strength : Option ℚ
deriving DecidableEq, Repr

/-- One row of evidence_decision_links as used by the decision tools. -/
structure DecisionLink where
  decision_id : ℕ
  evidence_id : ℕ
  segment_match_factor : Option ℚ
  evidence_bank : Option EvidenceBankRef
deriving DecidableEq, Repr

/-- Gate recommendation labels stored on a decision. -/
inductive Gate
  | commit
  | validate
  | park
deriving DecidableEq, Repr

/-- The fields written back to the decisions row by
_refresh_decision_evidence_stats. -/
structure DecisionStats where
  evidence_count : ℕ
  evidence_strength : ℚ
  gate_recommendation : Gate
deriving DecidableEq, Repr

/-- The strengths list collected by _refresh_decision_evidence_stats
(decisions.py lines 271-275): computed_strength (null defaulting to 0)
of every link whose joined evidence record is present and truthy. -/
def collectedStrengths (links : List DecisionLink) : List ℚ :=
  links.filterMap (fun l => l.evidence_bank.map (fun eb => eb.computed_strength.getD 0))

/-- The avg_strength computation of _refresh_decision_evidence_stats
(decisions.py lines 267-276): 0 when no links; otherwise the plain
average of the collected strengths, 0 when nothing was collected.
The segment_match_factor column is selected by the query but never
read by this computation. -/
def decisionAvgStrength (links : List DecisionLink) : ℚ :=
  if links.length = 0 then 0
  else
    let strengths := collectedStrengths links
    if strengths = [] then 0 else strengths.sum / (strengths.length : ℚ)

/-- The gate recommendation branch of _refresh_decision_evidence_stats
(decisions.py lines 279-284). -/
def gateOf (avg : ℚ) : Gate :=
  if avg > 70 then Gate.commit
  else if avg ≥ 40 then Gate.validate
  else Gate.park

/-- _refresh_decision_evidence_stats (decisions.py lines 257-290):
the update written to the decision row. -/
def refreshDecisionEvidenceStats (links : List DecisionLink) : DecisionStats :=
  let avg := decisionAvgStrength links
  { evidence_count := links.length
    evidence_strength := PyModel.round2 avg
    gate_recommendation := gateOf avg }

/-- unlink_evidence_from_decision (decisions.py lines 194-211) acting on
the link table: delete every row matching the (decision, evidence) pair,
then refresh the decision stats from the rows still linked to the
decision. Returns the new table and the stats written back. -/
def unlinkEvidenceFromDecision (table : List DecisionLink) (d e : ℕ) :
    List DecisionLink × DecisionStats :=
  let table2 := table.filter
    (fun l => ¬ (l.decision_id = d ∧ l.evidence_id = e))
  (table2,
   refreshDecisionEvidenceStats (table2.filter (fun l => l.decision_id = d)))

/-- Modelled from the spec wording of claim C2: the weighted arithmetic
mean of (computed_strength, weight) pairs, weight defaulting to 1 when
absent, 0 on the empty set. Used only to compare against the source
computation. -/
def specWeightedMean (pairs : List (ℚ × Option ℚ)) : ℚ :=
  if pairs = [] then 0
  else
    let wsum := (pairs.map (fun p => p.2.getD 1)).sum
    (pairs.map (fun p => p.1 * p.2.getD 1)).sum / wsum

/-- Spec wording of the unweighted arithmetic mean, for the amended C2. -/
def specUnweightedMean (vals : List ℚ) : ℚ :=
  if vals = [] then 0 else vals.sum / (vals.length : ℚ)

/-- Spec wording of the gate thresholds of claim C3: above 70 commit,
40 to 70 inclusive validate, below 40 park. -/
def specGate (a : ℚ) : Gate :=
  if a > 70 then Gate.commit
  else if 40 ≤ a ∧ a ≤ 70 then Gate.validate
  else Gate.park

lemma decisionAvgStrength_eq_unweighted (links : List DecisionLink) :
    decisionAvgStrength links = specUnweightedMean (collectedStrengths links) := by
  by_cases h : links = []
  · subst h
    simp [decisionAvgStrength, specUnweightedMean, collectedStrengths]
  · rw [decisionAvgStrength, if_neg (by simpa using h)]
    rw [specUnweightedMean]

/-- The two links of the C2 counterexample: strengths 80 and 20 with
segment-match factors 1 and 3. -/
def c2Links : List DecisionLink :=
  [⟨1, 1, some 1, some ⟨some 80⟩⟩, ⟨1, 2, some 3, some ⟨some 20⟩⟩]

end DecisionTools

namespace DecisionTools

lemma avg_nil : decisionAvgStrength [] = 0 := by
  rw [decisionAvgStrength]
  simp

lemma refresh_nil_strength : (refreshDecisionEvidenceStats []).evidence_strength = 0 := by
  show PyModel.round2 (decisionAvgStrength []) = 0
  rw [avg_nil, PyModel.round2_zero]

lemma refresh_nil_gate :
    (refreshDecisionEvidenceStats []).gate_recommendation = Gate.park := by
  show gateOf (decisionAvgStrength []) = Gate.park
  rw [avg_nil, gateOf]
  norm_num

lemma unlink_snd_eq (t : List DecisionLink) (d e : ℕ) :
    (unlinkEvidenceFromDecision t d e).2
      = refreshDecisionEvidenceStats
          ((unlinkEvidenceFromDecision t d e).1.filter (fun l => l.decision_id = d)) := rfl

end DecisionTools

/-- C2 counterexample: on two links with computed strengths 80 and 20 and
segment-match factors 1 and 3, the recompute in decisions.py stores
evidence_strength 50 (the unweighted average), while the weighted
arithmetic mean the claim describes is 35. The per-link weighting factor
does not scale any contribution. -/
theorem c2_counterexample :
    (DecisionTools.refreshDecisionEvidenceStats DecisionTools.c2Links).evidence_strength = 50 ∧
    DecisionTools.specWeightedMean [(80, some 1), (20, some 3)] = 35 ∧
    (50 : ℚ) ≠ 35 := by
  refine ⟨?_, ?_, by norm_num⟩
  · have h1 : DecisionTools.collectedStrengths DecisionTools.c2Links = [80, 20] := by
      decide
    have h2 : DecisionTools.decisionAvgStrength DecisionTools.c2Links = 50 := by
      rw [DecisionTools.decisionAvgStrength, if_neg (by decide)]
      simp only [h1]
      rw [if_neg (by decide)]
      norm_num
    show PyModel.round2 (DecisionTools.decisionAvgStrength DecisionTools.c2Links) = 50
    rw [h2]
    have h3 := PyModel.round2_intCast 50
    simpa using h3
  · rw [DecisionTools.specWeightedMean, if_neg (by decide)]
    norm_num

/-- C2 amended: the recompute performed on each link and unlink sets
evidence_strength to the UNWEIGHTED arithmetic mean (rounded to two
decimals) of the linked evidence items' computed_strength values, over
the links whose joined evidence record is present; the segment-match
factor is fetched but never applied, so the stored stats are invariant
under changing every factor; an empty linked set yields aggregate 0. -/
theorem c2_amended :
    (∀ links,
      (DecisionTools.refreshDecisionEvidenceStats links).evidence_strength
        = PyModel.round2
            (DecisionTools.specUnweightedMean (DecisionTools.collectedStrengths links)) ∧
      (DecisionTools.refreshDecisionEvidenceStats links).evidence_count = links.length) ∧
    (∀ links f,
      DecisionTools.refreshDecisionEvidenceStats
          (links.map (fun l => { l with segment_match_factor := f }))
        = DecisionTools.refreshDecisionEvidenceStats links) ∧
    (DecisionTools.refreshDecisionEvidenceStats []).evidence_strength = 0 := by
  refine ⟨fun links => ⟨?_, rfl⟩, fun links f => ?_, DecisionTools.refresh_nil_strength⟩
  · show PyModel.round2 (DecisionTools.decisionAvgStrength links) = _
    rw [DecisionTools.decisionAvgStrength_eq_unweighted]
  · have hcs : DecisionTools.collectedStrengths
          (links.map (fun l => { l with segment_match_factor := f }))
        = DecisionTools.collectedStrengths links := by
      rw [DecisionTools.collectedStrengths, DecisionTools.collectedStrengths,
        List.filterMap_map]
      rfl
    have hlen : (links.map (fun l => { l with segment_match_factor := f })).length
        = links.length := by simp
    have havg : DecisionTools.decisionAvgStrength
          (links.map (fun l => { l with segment_match_factor := f }))
        = DecisionTools.decisionAvgStrength links := by
      rw [DecisionTools.decisionAvgStrength, DecisionTools.decisionAvgStrength, hcs, hlen]
    simp only [DecisionTools.refreshDecisionEvidenceStats, havg, hlen]

/-- C3: the gate recommendation computed during the decision recompute is
commit above 70, validate from 40 to 70 inclusive (both boundary values
map to validate), park below 40; an empty evidence set has aggregate 0
and gate park. -/
theorem c3_gate_thresholds :
    (∀ a : ℚ, DecisionTools.gateOf a = DecisionTools.specGate a) ∧
    (∀ links, (DecisionTools.refreshDecisionEvidenceStats links).gate_recommendation
        = DecisionTools.gateOf (DecisionTools.decisionAvgStrength links)) ∧
    DecisionTools.gateOf 70 = DecisionTools.Gate.validate ∧
    DecisionTools.gateOf 40 = DecisionTools.Gate.validate ∧
    (DecisionTools.refreshDecisionEvidenceStats []).gate_recommendation
      = DecisionTools.Gate.park := by
  refine ⟨?_, fun links => rfl, ?_, ?_, DecisionTools.refresh_nil_gate⟩
  · intro a
    rw [DecisionTools.gateOf, DecisionTools.specGate]
    by_cases h1 : a > 70
    · rw [if_pos h1, if_pos h1]
    · rw [if_neg h1, if_neg h1]
      by_cases h2 : a ≥ 40
      · rw [if_pos h2, if_pos ⟨h2, le_of_not_lt h1⟩]
      · rw [if_neg h2, if_neg (fun h => h2 h.1)]
  · rw [DecisionTools.gateOf]
    norm_num
  · rw [DecisionTools.gateOf]
    norm_num

/-- C4: after unlink_evidence_from_decision removes the last remaining
evidence link of a decision, the refreshed stats have evidence_count 0
and evidence_strength 0. -/
theorem c4_unlink_last (table : List DecisionTools.DecisionLink) (d e : ℕ)
    (h : (DecisionTools.unlinkEvidenceFromDecision table d e).1.filter
        (fun l => l.decision_id = d) = []) :
    (DecisionTools.unlinkEvidenceFromDecision table d e).2.evidence_count = 0 ∧
    (DecisionTools.unlinkEvidenceFromDecision table d e).2.evidence_strength = 0 := by
  rw [DecisionTools.unlink_snd_eq, h]
  exact ⟨rfl, DecisionTools.refresh_nil_strength⟩

/-- C4 witness: a concrete table with a single link, unlinked. -/
theorem c4_unlink_last_witness :
    ((DecisionTools.unlinkEvidenceFromDecision
        [⟨1, 1, none, some ⟨some 50⟩⟩] 1 1).1.filter (fun l => l.decision_id = 1) = []) ∧
    ((DecisionTools.unlinkEvidenceFromDecision [⟨1, 1, none, some ⟨some 50⟩⟩] 1 1).2.evidence_count = 0 ∧
     (DecisionTools.unlinkEvidenceFromDecision [⟨1, 1, none, some ⟨some 50⟩⟩] 1 1).2.evidence_strength = 0) :=
  ⟨by decide, c4_unlink_last [⟨1, 1, none, some ⟨some 50⟩⟩] 1 1 (by decide)⟩

namespace ContradictionAgent

/-! Embedding of the direct sentiment-comparison rule of
run_contradiction_detector (contradiction_detector.py lines 75-101).
The rule looks at one candidate pair: the newly ingested evidence item
and one vector-similarity neighbour. -/

/-- The fields of an evidence_bank row read by the direct rule.
A sentiment of none models both a null column and a missing key;
the empty string is also falsy for the rule. -/
structure Evidence where
  sentiment : Option String
  source_system : Option String
deriving DecidableEq, Repr

/-- is_sentiment_conflict (contradiction_detector.py lines 80-84): both
sentiment tags are truthy, they differ, and as a set they are exactly
the pair positive/negative. -/
def isSentimentConflict (newS existS : Option String) : Prop :=
  PyModel.truthyStr newS = true ∧ PyModel.truthyStr existS = true ∧
  newS ≠ existS ∧
  ({newS.getD "", existS.getD ""} : Finset String) = {"positive", "negative"}

/-- is_independent (contradiction_detector.py line 87): the two source
systems differ. -/
def isIndependent (newE existE : Evidence) : Prop :=
  existE.source_system ≠ newE.source_system

/-- The direct rule (contradiction_detector.py line 89): the pair is
reported as a sentiment_mismatch contradiction exactly when both
predicates hold. -/
def directRuleReports (newE existE : Evidence) : Prop :=
  isSentimentConflict newE.sentiment existE.sentiment ∧ isIndependent newE existE

/-- Spec wording of opposite polarity for claim C5: one tag is positive
and the other negative. -/
def specOppositePolarity (a b : Option String) : Prop :=
  (a = some "positive" ∧ b = some "negative") ∨
  (a = some "negative" ∧ b = some "positive")

lemma sentimentConflict_iff (a b : Option String) :
    isSentimentConflict a b ↔ specOppositePolarity a b := by
  constructor
  · rintro ⟨ha, hb, hne, hset⟩
    obtain ⟨x, hx⟩ : ∃ x, a = some x := by
      cases a with
      | none => simp [PyModel.truthyStr] at ha
      | some v => exact ⟨v, rfl⟩
    obtain ⟨y, hy⟩ : ∃ y, b = some y := by
      cases b with
      | none => simp [PyModel.truthyStr] at hb
      | some v => exact ⟨v, rfl⟩
    subst hx
    subst hy
    simp only [Option.getD_some] at hset
    have hxmem : x ∈ ({"positive", "negative"} : Finset String) := by
      rw [← hset]
      simp
    have hymem : y ∈ ({"positive", "negative"} : Finset String) := by
      rw [← hset]
      simp
    have hxy : x ≠ y := by
      intro hcon
      exact hne (by rw [hcon])
    simp only [Finset.mem_insert, Finset.mem_singleton] at hxmem hymem
    rw [specOppositePolarity]
    rcases hxmem with hx1 | hx1 <;> rcases hymem with hy1 | hy1
    · exact absurd (hx1.trans hy1.symm) hxy
    · exact Or.inl ⟨by rw [hx1], by rw [hy1]⟩
    · exact Or.inr ⟨by rw [hx1], by rw [hy1]⟩
    · exact absurd (hx1.trans hy1.symm) hxy
  · rintro (⟨ha, hb⟩ | ⟨ha, hb⟩) <;> subst ha <;> subst hb
    · refine ⟨by decide, by decide, by decide, by decide⟩
    · refine ⟨by decide, by decide, by decide, ?_⟩
      simp only [Option.getD_some]
      rw [Finset.pair_comm]

/-- C5: the direct sentiment-comparison rule reports a candidate pair
if and only if the two items carry opposite-polarity sentiment tags
(one positive, one negative) and their source systems differ. Hence a
pair with the same source system, the same polarity, or a missing or
empty sentiment tag is never reported by the direct rule. -/
theorem c5_direct_rule_iff (newE existE : ContradictionAgent.Evidence) :
    ContradictionAgent.directRuleReports newE existE ↔
      (ContradictionAgent.specOppositePolarity newE.sentiment existE.sentiment ∧
       newE.source_system ≠ existE.source_system) := by
  rw [ContradictionAgent.directRuleReports, ContradictionAgent.isIndependent,
    ContradictionAgent.sentimentConflict_iff]
  constructor
  · rintro ⟨h1, h2⟩
    exact ⟨h1, fun h => h2 h.symm⟩
  · rintro ⟨h1, h2⟩
    exact ⟨h1, fun h => h2 h.symm⟩

end ContradictionAgent

namespace NoteEvidenceTools

/-! Embedding of link_evidence_to_note and unlink_evidence_from_note
(discovery-board-mcp/tools/evidence.py lines 104-151). The two tables
they touch are modelled as a board: the sticky_note_evidence_links rows
and the has_evidence column of each sticky note. -/

/-- One row of sticky_note_evidence_links. -/
structure NoteLink where
  sticky_note_id : ℕ
  evidence_bank_id : ℕ
deriving DecidableEq, Repr

/-- The state the two tools read and write: the link table and the
per-note has_evidence flag. -/
structure Board where
  links : List NoteLink
  has_evidence : ℕ → Bool

/-- link_evidence_to_note (evidence.py lines 104-123): insert the link
row, then unconditionally set has_evidence true on that note. -/
def linkEvidenceToNote (b : Board) (note ev : ℕ) : Board :=
  { links := ⟨note, ev⟩ :: b.links
    has_evidence := fun n => if n = note then true else b.has_evidence n }

/-- unlink_evidence_from_note (evidence.py lines 126-151): delete all
rows matching the pair, count the remaining links of the note, and set
has_evidence false exactly when that count is 0 (otherwise the flag is
left as it was). -/
def unlinkEvidenceFromNote (b : Board) (note ev : ℕ) : Board :=
  let links2 := b.links.filter
    (fun l => ¬ (l.sticky_note_id = note ∧ l.evidence_bank_id = ev))
  let remaining := (links2.filter (fun l => l.sticky_note_id = note)).length
  { links := links2
    has_evidence := fun n => if remaining = 0 ∧ n = note then false else b.has_evidence n }

/-- The invariant of claim C10: a note's has_evidence flag is true
exactly when at least one evidence link for that note exists. -/
def flagInvariant (b : Board) : Prop :=
  ∀ n, b.has_evidence n = true ↔ (b.links.filter (fun l => l.sticky_note_id = n)) ≠ []

/-- Concrete one-link board used by the C10 witness. -/
def b0 : Board :=
  { links := [⟨1, 1⟩]
    has_evidence := fun n =>
      decide ((([⟨1, 1⟩] : List NoteLink).filter (fun l => l.sticky_note_id = n)) ≠ []) }

lemma b0_invariant : flagInvariant b0 := fun _ => decide_eq_true_iff

end NoteEvidenceTools

/-- C10: the sticky-note evidence-link operations preserve the flag
invariant (has_evidence true exactly when a link exists): linking always
sets the flag after inserting the row, and unlinking sets the flag to
false exactly when no link of the note remains after the deletion. -/
theorem c10_note_flag_invariant :
    (∀ (b : NoteEvidenceTools.Board) (note ev : ℕ), NoteEvidenceTools.flagInvariant b →
      NoteEvidenceTools.flagInvariant (NoteEvidenceTools.linkEvidenceToNote b note ev)) ∧
    (∀ (b : NoteEvidenceTools.Board) (note ev : ℕ), NoteEvidenceTools.flagInvariant b →
      NoteEvidenceTools.flagInvariant (NoteEvidenceTools.unlinkEvidenceFromNote b note ev)) ∧
    (∀ (b : NoteEvidenceTools.Board) (note ev : ℕ), NoteEvidenceTools.flagInvariant b →
      ((NoteEvidenceTools.unlinkEvidenceFromNote b note ev).has_evidence note = false ↔
       (NoteEvidenceTools.unlinkEvidenceFromNote b note ev).links.filter
         (fun l => l.sticky_note_id = note) = [])) := by
  refine ⟨fun b note ev h => ?_, fun b note ev h => ?_, fun b note ev h => ?_⟩
  · intro n
    by_cases hn : n = note
    · subst hn
      simp [NoteEvidenceTools.linkEvidenceToNote, List.filter_cons]
    · simp only [NoteEvidenceTools.linkEvidenceToNote, List.filter_cons]
      have hd : (decide ((⟨note, ev⟩ : NoteEvidenceTools.NoteLink).sticky_note_id = n)) = false := by
        simp [Ne.symm hn]
      rw [if_neg hn]
      simp only [hd]
      simpa using h n
  · intro n
    simp only [NoteEvidenceTools.unlinkEvidenceFromNote]
    set links2 := b.links.filter
      (fun l => ¬ (l.sticky_note_id = note ∧ l.evidence_bank_id = ev)) with hl2
    by_cases hn : n = note
    · subst hn
      by_cases hr : (links2.filter (fun l => l.sticky_note_id = n)).length = 0
      · rw [if_pos ⟨hr, rfl⟩]
        rw [List.length_eq_zero] at hr
        simp [hr]
      · rw [if_neg (fun hc => hr hc.1)]
        have hne2 : links2.filter (fun l => l.sticky_note_id = n) ≠ [] := by
          intro hc
          exact hr (by rw [hc]; rfl)
        obtain ⟨x, hx⟩ := List.exists_mem_of_ne_nil _ hne2
        have hx2 := List.mem_filter.mp hx
        have hx3 := List.mem_filter.mp hx2.1
        have hbne : b.links.filter (fun l => l.sticky_note_id = n) ≠ [] :=
          List.ne_nil_of_mem (List.mem_filter.mpr ⟨hx3.1, hx2.2⟩)
        simp [(h n).mpr hbne, hne2]
    · rw [if_neg (fun hc => hn hc.2)]
      have hfe : links2.filter (fun l => l.sticky_note_id = n)
          = b.links.filter (fun l => l.sticky_note_id = n) := by
        rw [hl2, List.filter_filter]
        apply List.filter_congr
        intro x hx
        by_cases hs : x.sticky_note_id = n
        · simp [hs]
          exact Or.inl hn
        · simp [hs]
      rw [hfe]
      exact h n
  · simp only [NoteEvidenceTools.unlinkEvidenceFromNote]
    set links2 := b.links.filter
      (fun l => ¬ (l.sticky_note_id = note ∧ l.evidence_bank_id = ev)) with hl2
    by_cases hr : (links2.filter (fun l => l.sticky_note_id = note)).length = 0
    · rw [if_pos ⟨hr, trivial⟩]
      rw [List.length_eq_zero] at hr
      simp [hr]
    · rw [if_neg (fun hc => hr hc.1)]
      have hne2 : links2.filter (fun l => l.sticky_note_id = note) ≠ [] := by
        intro hc
        exact hr (by rw [hc]; rfl)
      obtain ⟨x, hx⟩ := List.exists_mem_of_ne_nil _ hne2
      have hx2 := List.mem_filter.mp hx
      have hx3 := List.mem_filter.mp hx2.1
      have hbne : b.links.filter (fun l => l.sticky_note_id = note) ≠ [] :=
        List.ne_nil_of_mem (List.mem_filter.mpr ⟨hx3.1, hx2.2⟩)
      simp [(h note).mpr hbne, hne2]

/-- C10 witness: a one-link board; linking a second note and unlinking
the only link both preserve the invariant, and the unlink resets the
flag of note 1. -/
theorem c10_note_flag_invariant_witness :
    NoteEvidenceTools.flagInvariant NoteEvidenceTools.b0 ∧
    NoteEvidenceTools.flagInvariant
      (NoteEvidenceTools.linkEvidenceToNote NoteEvidenceTools.b0 2 5) ∧
    NoteEvidenceTools.flagInvariant
      (NoteEvidenceTools.unlinkEvidenceFromNote NoteEvidenceTools.b0 1 1) ∧
    ((NoteEvidenceTools.unlinkEvidenceFromNote NoteEvidenceTools.b0 1 1).has_evidence 1 = false ↔
     (NoteEvidenceTools.unlinkEvidenceFromNote NoteEvidenceTools.b0 1 1).links.filter
       (fun l => l.sticky_note_id = 1) = []) :=
  ⟨NoteEvidenceTools.b0_invariant,
   c10_note_flag_invariant.1 _ 2 5 NoteEvidenceTools.b0_invariant,
   c10_note_flag_invariant.2.1 _ 1 1 NoteEvidenceTools.b0_invariant,
   c10_note_flag_invariant.2.2 _ 1 1 NoteEvidenceTools.b0_invariant⟩

namespace EvidenceLinkGraph

/-! Embedding of parallel_detect_node (evidence_link.py lines 47-74) and
the node wrappers it dispatches (graphs/nodes/segment.py and
graphs/nodes/contradiction.py). The flow state is a Python dict; it is
modelled as a partial map from the keys of EvidenceLinkState to values.
An asyncio task outcome with return_exceptions=True is either the dict
the node returned or the exception object, modelled as Except. -/

/-- The keys of EvidenceLinkState touched by the parallel step. -/
inductive Key
  | evidence_id
  | workspace_id
  | sticky_note_id
  | segment_result
  | segment
  | all_segments
  | contradiction_result
  | contradictions_found
  | contradiction_alerts
deriving DecidableEq, Repr

/-- The dict returned by run_segment_identifier, as read by the node
wrapper: result.get of segment and all_segments. -/
structure SegResult where
  segment : Option String
  all_segments : Option (List String)
deriving DecidableEq, Repr

/-- The dict returned by run_contradiction_detector, as read by the node
wrapper: result.get of contradictions_found and alerts. -/
structure ContraResult where
  contradictions_found : Option ℤ
  alerts : Option (List String)
deriving DecidableEq, Repr

/-- Values stored in the state dict. A Python None value is vnone;
the error dict written for a failed branch is verrdict. -/
inductive Val
  | vnone
  | vstr (s : String)
  | vint (n : ℤ)
  | vlist (l : List String)
  | vsegres (r : SegResult)
  | vcontrares (r : ContraResult)
  | verrdict (msg : String)
deriving DecidableEq

/-- A state dict: none models an absent key. -/
def State := Key → Option Val

/-- Python dict.update: keys present in the update win. -/
def dictUpdate (d u : State) : State :=
  fun k => match u k with
    | some v => some v
    | none => d k

/-- Assignment of a single key. -/
def dictSet (d : State) (key : Key) (v : Val) : State :=
  fun k => if k = key then some v else d k

/-- segment_node (graphs/nodes/segment.py): the full dict it returns on
success, namely the input state updated with segment_result, segment and
all_segments. -/
def segmentNodeOutput (s : State) (r : SegResult) : State :=
  dictUpdate s (fun k => match k with
    | Key.segment_result => some (Val.vsegres r)
    | Key.segment => some (match r.segment with
        | some v => Val.vstr v
        | none => Val.vnone)
    | Key.all_segments => some (Val.vlist (r.all_segments.getD []))
    | _ => none)

/-- contradiction_node (graphs/nodes/contradiction.py): the full dict it
returns on success. -/
def contradictionNodeOutput (s : State) (r : ContraResult) : State :=
  dictUpdate s (fun k => match k with
    | Key.contradiction_result => some (Val.vcontrares r)
    | Key.contradictions_found => some (Val.vint (r.contradictions_found.getD 0))
    | Key.contradiction_alerts => some (Val.vlist (r.alerts.getD []))
    | _ => none)

/-- parallel_detect_node (evidence_link.py lines 47-74): both branch
outcomes are merged into a copy of the fan-out state; a successful
branch merges its full returned dict, a failed branch writes the
documented neutral keys (segment None plus an error dict, or
contradictions_found 0 plus an error dict). The merged dict is what the
parallel_detect to strength edge hands to the downstream nodes. -/
def parallelDetectNode (s : State)
    (segOutcome : Except String SegResult)
    (contraOutcome : Except String ContraResult) : State :=
  let merged := s
  let merged := match segOutcome with
    | Except.ok r => dictUpdate merged (segmentNodeOutput s r)
    | Except.error e =>
        dictSet (dictSet merged Key.segment Val.vnone) Key.segment_result (Val.verrdict e)
  let merged := match contraOutcome with
    | Except.ok r => dictUpdate merged (contradictionNodeOutput s r)
    | Except.error e =>
        dictSet (dictSet merged Key.contradictions_found (Val.vint 0))
          Key.contradiction_result (Val.verrdict e)
  merged

end EvidenceLinkGraph

/-- C6: in the parallel group of the evidence-link flow, a failing
branch never aborts the merge. If the contradiction branch raises while
the segment branch succeeds, the merged state handed downstream still
carries the full segment output and the contradiction keys hold the
neutral default (contradictions_found 0 and an error dict);
symmetrically, a segment failure writes segment None while the
contradiction output is kept. The symmetric half assumes the fan-out
state carries no segment keys yet, which holds for the entry state of
the flow (the successful sibling merges its full returned dict, so a
pre-existing segment key of the fan-out state would win over the None
substituted for the failed branch). -/
theorem c6_parallel_failure_isolation :
    (∀ (s : EvidenceLinkGraph.State) (r : EvidenceLinkGraph.SegResult) (e : String),
      (EvidenceLinkGraph.parallelDetectNode s (Except.ok r) (Except.error e))
          EvidenceLinkGraph.Key.segment_result
        = some (EvidenceLinkGraph.Val.vsegres r) ∧
      (EvidenceLinkGraph.parallelDetectNode s (Except.ok r) (Except.error e))
          EvidenceLinkGraph.Key.segment
        = some (match r.segment with
            | some v => EvidenceLinkGraph.Val.vstr v
            | none => EvidenceLinkGraph.Val.vnone) ∧
      (EvidenceLinkGraph.parallelDetectNode s (Except.ok r) (Except.error e))
          EvidenceLinkGraph.Key.all_segments
        = some (EvidenceLinkGraph.Val.vlist (r.all_segments.getD [])) ∧
      (EvidenceLinkGraph.parallelDetectNode s (Except.ok r) (Except.error e))
          EvidenceLinkGraph.Key.contradictions_found
        = some (EvidenceLinkGraph.Val.vint 0) ∧
      (EvidenceLinkGraph.parallelDetectNode s (Except.ok r) (Except.error e))
          EvidenceLinkGraph.Key.contradiction_result
        = some (EvidenceLinkGraph.Val.verrdict e)) ∧
    (∀ (s : EvidenceLinkGraph.State) (c : EvidenceLinkGraph.ContraResult) (e : String),
      s EvidenceLinkGraph.Key.segment = none →
      s EvidenceLinkGraph.Key.segment_result = none →
      (EvidenceLinkGraph.parallelDetectNode s (Except.error e) (Except.ok c))
          EvidenceLinkGraph.Key.contradiction_result
        = some (EvidenceLinkGraph.Val.vcontrares c) ∧
      (EvidenceLinkGraph.parallelDetectNode s (Except.error e) (Except.ok c))
          EvidenceLinkGraph.Key.contradictions_found
        = some (EvidenceLinkGraph.Val.vint (c.contradictions_found.getD 0)) ∧
      (EvidenceLinkGraph.parallelDetectNode s (Except.error e) (Except.ok c))
          EvidenceLinkGraph.Key.contradiction_alerts
        = some (EvidenceLinkGraph.Val.vlist (c.alerts.getD [])) ∧
      (EvidenceLinkGraph.parallelDetectNode s (Except.error e) (Except.ok c))
          EvidenceLinkGraph.Key.segment
        = some EvidenceLinkGraph.Val.vnone ∧
      (EvidenceLinkGraph.parallelDetectNode s (Except.error e) (Except.ok c))
          EvidenceLinkGraph.Key.segment_result
        = some (EvidenceLinkGraph.Val.verrdict e)) := by
  constructor
  · intro s r e
    refine ⟨rfl, rfl, rfl, rfl, rfl⟩
  · intro s c e hseg hsegres
    refine ⟨rfl, rfl, rfl, ?_, ?_⟩
    · show EvidenceLinkGraph.dictUpdate _ (EvidenceLinkGraph.contradictionNodeOutput s c)
        EvidenceLinkGraph.Key.segment = some EvidenceLinkGraph.Val.vnone
      simp only [EvidenceLinkGraph.dictUpdate, EvidenceLinkGraph.contradictionNodeOutput,
        EvidenceLinkGraph.dictSet, hseg]
      rfl
    · show EvidenceLinkGraph.dictUpdate _ (EvidenceLinkGraph.contradictionNodeOutput s c)
        EvidenceLinkGraph.Key.segment_result = some (EvidenceLinkGraph.Val.verrdict e)
      simp only [EvidenceLinkGraph.dictUpdate, EvidenceLinkGraph.contradictionNodeOutput,
        EvidenceLinkGraph.dictSet, hsegres]
      rfl

namespace EvidenceLinkGraph

/-- The entry state of one evidence-link run: only the input keys are
present, as constructed by the flow trigger. -/
def s0 : State := fun k =>
  match k with
  | Key.evidence_id => some (Val.vstr "ev-1")
  | Key.workspace_id => some (Val.vstr "ws-1")
  | Key.sticky_note_id => some (Val.vstr "note-1")
  | _ => none

end EvidenceLinkGraph

/-- C6 witness: a concrete entry state, a crashed segment branch and a
successful contradiction branch. -/
theorem c6_parallel_failure_isolation_witness :
    (EvidenceLinkGraph.s0 EvidenceLinkGraph.Key.segment = none) ∧
    (EvidenceLinkGraph.s0 EvidenceLinkGraph.Key.segment_result = none) ∧
    ((EvidenceLinkGraph.parallelDetectNode EvidenceLinkGraph.s0
        (Except.error "segment agent crashed") (Except.ok ⟨some 2, some ["enterprise"]⟩))
        EvidenceLinkGraph.Key.segment = some EvidenceLinkGraph.Val.vnone ∧
     (EvidenceLinkGraph.parallelDetectNode EvidenceLinkGraph.s0
        (Except.error "segment agent crashed") (Except.ok ⟨some 2, some ["enterprise"]⟩))
        EvidenceLinkGraph.Key.segment_result
       = some (EvidenceLinkGraph.Val.verrdict "segment agent crashed")) :=
  ⟨rfl, rfl,
   (c6_parallel_failure_isolation.2 EvidenceLinkGraph.s0
      ⟨some 2, some ["enterprise"]⟩ "segment agent crashed" rfl rfl).2.2.2⟩

namespace SessionGraph

/-! Embedding of the compiled SessionAnalysisFlow graph
(session_analysis.py lines 169-227) run against the reasoning-service
stub of the claim: the analyzer always yields exactly 1 actionable
recommendation.

The wiring is transcribed as built by build_session_analysis_graph:
entry gather; gather to gaps; gaps to analyze; after analyze the
conditional edge maps the label retry to the node gather and the label
done to the node finalize; the node retry (retry_with_context, the only
place that increments retry_count) has an outgoing edge to gather but no
edge routes into it, so it is transcribed as a node of the machine that
is simply never reached. -/

/-- The nodes of the compiled graph, plus a terminal endNode for END. -/
inductive Node
  | gather
  | gaps
  | analyze
  | retryNode
  | finalize
  | endNode
deriving DecidableEq, Repr

/-- The state fields read or written along the loop, with the dict
access state.get(field, 0) modelled by starting the Nat fields at 0.
gatherVisits instruments how often the gather node has run. -/
structure Config where
  node : Node
  retry_count : ℕ
  recommendations_count : ℕ
  passed_quality : Bool
  completed : Bool
  gatherVisits : ℕ
deriving DecidableEq, Repr

/-- The reasoning-service stub of the claim: always 1 recommendation. -/
def stubRecommendations : ℕ := 1

/-- quality_gate (session_analysis.py lines 169-177): route to the
label retry when fewer than 3 recommendations and fewer than 1 retries,
else to the label done. True stands for the label retry. -/
def qualityGateRetry (recs retries : ℕ) : Bool :=
  recs < 3 ∧ retries < 1

/-- One step of the compiled graph under the stub. gather preserves
retry_count (it writes state.get of retry_count with default 0);
analyze writes the stub recommendation count and then the conditional
edge routes on quality_gate, with the label retry mapped to the node
gather; retry_with_context would increment retry_count but nothing
routes to it; finalize records completed and passed_quality. -/
def step (c : Config) : Config :=
  match c.node with
  | Node.gather =>
      { c with node := Node.gaps, gatherVisits := c.gatherVisits + 1 }
  | Node.gaps => { c with node := Node.analyze }
  | Node.analyze =>
      let c2 := { c with recommendations_count := stubRecommendations }
      if qualityGateRetry c2.recommendations_count c2.retry_count
      then { c2 with node := Node.gather }
      else { c2 with node := Node.finalize }
  | Node.retryNode =>
      { c with retry_count := c.retry_count + 1, node := Node.gather }
  | Node.finalize =>
      { c with node := Node.endNode,
               completed := true,
               passed_quality :=
                 decide (c.recommendations_count ≥ 3 ∨ c.retry_count ≥ 1) }
  | Node.endNode => c

/-- The initial state of one run: entry at gather with only the input
fields set. -/
def start : Config :=
  { node := Node.gather
    retry_count := 0
    recommendations_count := 0
    passed_quality := false
    completed := false
    gatherVisits := 0 }

/-- The configuration after n engine steps. -/
def run (n : ℕ) : Config := step^[n] start

/-- The loop invariant: the run stays inside the gather/gaps/analyze
cycle, the retry counter never leaves 0, and the run is never marked
completed. -/
def looping (c : Config) : Prop :=
  (c.node = Node.gather ∨ c.node = Node.gaps ∨ c.node = Node.analyze) ∧
  c.retry_count = 0 ∧ c.completed = false

lemma looping_step {c : Config} (h : looping c) : looping (step c) := by
  obtain ⟨hnode, hrc, hcomp⟩ := h
  rcases hnode with h1 | h1 | h1 <;>
    simp [looping, step, h1, hrc, hcomp, qualityGateRetry, stubRecommendations]

lemma looping_run (n : ℕ) : looping (run n) := by
  induction n with
  | zero => exact ⟨Or.inl rfl, rfl, rfl⟩
  | succ k ih =>
      rw [run, Function.iterate_succ_apply']
      exact looping_step ih

end SessionGraph

/-- C1: the claim fails on the code. Under the always-1-recommendation
stub the compiled session-analysis graph never terminates: the
conditional edge maps the label retry to the node gather, bypassing
retry_with_context (the only increment of retry_count), so the retry
counter stays 0, the quality gate routes back to gather forever, and the
run never reaches DONE. In particular, after 9 steps gather has already
run 3 times (the claim allows exactly 2), and at every step count the
run has not ended and the counter is still 0. -/
theorem c1_retry_loop_never_terminates :
    (∀ n, (SessionGraph.run n).node ≠ SessionGraph.Node.endNode ∧
          (SessionGraph.run n).completed = false ∧
          (SessionGraph.run n).retry_count = 0) ∧
    (SessionGraph.run 9).gatherVisits = 3 ∧
    (SessionGraph.run 9).node = SessionGraph.Node.gather := by
  refine ⟨fun n => ?_, by decide, by decide⟩
  obtain ⟨hnode, hrc, hcomp⟩ := SessionGraph.looping_run n
  refine ⟨?_, hcomp, hrc⟩
  rcases hnode with h | h | h <;> simp [h]

namespace DecayAgent

/-! Embedding of the canonical decay monitor
(embedding-service/agents/decay_monitor.py): _calculate_staleness,
_check_flag_conditions and the per-item classification inside
run_decay_monitor, for decisions (lines 43-103) and for validating
sticky notes (lines 126-190). Timestamps are modelled as whole days, so
now minus timestamp is the .days value of the datetime difference. -/

/-- The columns of an evidence_bank row read by the monitor. A none
timestamp models a null column or an unparseable string. -/
structure Evidence where
  source_timestamp : Option ℤ
  created_at : Option ℤ
  computed_strength : Option ℚ
deriving DecidableEq, Repr

/-- Why an item was flagged; each constructor stands for one of the
f-string reasons of decay_monitor.py, carrying the interpolated value. -/
inductive Reason
  | noEvidenceLinked
  | noDatedEvidence
  | validatingNoEvidence
  | evidenceOld (days : ℤ)
  | staleShare (pct : ℤ)
  | weakCommit (strength : ℚ)
  | noteEvidenceOld (days : ℤ)
  | noteWeak (strength : ℚ)
deriving DecidableEq, Repr

/-- The dict returned by _calculate_staleness. -/
structure Staleness where
  dates : List ℤ
  days_since_latest : Option ℤ
  stale_percentage : ℤ
  avg_strength : ℚ
deriving DecidableEq, Repr

/-- The dates list of _calculate_staleness (lines 233-240):
source_timestamp falling back to created_at via Python or. -/
def stalenessDates (items : List Evidence) : List ℤ :=
  items.filterMap (fun e => PyModel.orOpt e.source_timestamp e.created_at)

/-- The strengths list of _calculate_staleness (lines 241-242): only
truthy computed_strength values are collected, so a 0 strength is
dropped. -/
def stalenessStrengths (items : List Evidence) : List ℚ :=
  items.filterMap (fun e =>
    match e.computed_strength with
    | some s => if s = 0 then none else some s
    | none => none)

/-- The count of dates older than 90 days (line 249). -/
def oldCount (dates : List ℤ) (now : ℤ) : ℕ :=
  (dates.filter (fun d => now - d > 90)).length

/-- _calculate_staleness (decay_monitor.py lines 228-258). -/
def calculateStaleness (items : List Evidence) (now : ℤ) : Staleness :=
  let dates := stalenessDates items
  let strengths := stalenessStrengths items
  if dates = [] then
    { dates := [], days_since_latest := none, stale_percentage := 100, avg_strength := 0 }
  else
    match dates.max? with
    | none =>
        { dates := [], days_since_latest := none, stale_percentage := 100, avg_strength := 0 }
    | some latest =>
        { dates := dates
          days_since_latest := some (now - latest)
          stale_percentage :=
            PyModel.roundHalfEven ((oldCount dates now : ℚ) / (dates.length : ℚ) * 100)
          avg_strength :=
            if strengths = [] then 0 else strengths.sum / (strengths.length : ℚ) }

/-- _check_flag_conditions (decay_monitor.py lines 261-270). The first
condition guards on the truthiness of days_since_latest before
comparing, exactly as the code does. -/
def checkFlagConditions (st : Staleness) (strength : ℚ) (status : String) : List Reason :=
  (match st.days_since_latest with
   | some d => if d ≠ 0 ∧ d > 21 then [Reason.evidenceOld d] else []
   | none => []) ++
  (if st.stale_percentage > 50 then [Reason.staleShare st.stale_percentage] else []) ++
  (if strength < 40 ∧ status = "commit" then [Reason.weakCommit strength] else [])

/-- How the monitor classifies one item. -/
inductive ItemResult
  | flagged (reasons : List Reason)
  | healthy
  | skipped
deriving DecidableEq, Repr

/-- The per-decision classification of run_decay_monitor (lines 43-103):
no links flags No evidence linked; links but no dated evidence flags
No dated evidence; otherwise _check_flag_conditions decides, with the
decision strength read as evidence_strength or 0. -/
def classifyDecision (links : List ℕ) (items : List Evidence)
    (evidence_strength : Option ℚ) (status : String) (now : ℤ) : ItemResult :=
  if links = [] then ItemResult.flagged [Reason.noEvidenceLinked]
  else
    let st := calculateStaleness items now
    if st.dates = [] then ItemResult.flagged [Reason.noDatedEvidence]
    else
      let strength := PyModel.orQ evidence_strength 0
      let reasons := checkFlagConditions st strength status
      if reasons = [] then ItemResult.healthy else ItemResult.flagged reasons

/-- The per-note classification of run_decay_monitor (lines 126-190):
no links flags Validating but no evidence linked; links but no dated
evidence is silently skipped (the loop continues without recording the
note anywhere); otherwise the note rules apply (older than 30 days, and
weak but nonzero average strength). -/
def classifyNote (links : List ℕ) (items : List Evidence) (now : ℤ) : ItemResult :=
  if links = [] then ItemResult.flagged [Reason.validatingNoEvidence]
  else
    let st := calculateStaleness items now
    if st.dates = [] then ItemResult.skipped
    else
      let reasons :=
        (match st.days_since_latest with
         | some d => if d > 30 then [Reason.noteEvidenceOld d] else []
         | none => []) ++
        (if 0 < st.avg_strength ∧ st.avg_strength < 40 then
          [Reason.noteWeak st.avg_strength] else [])
      if reasons = [] then ItemResult.healthy else ItemResult.flagged reasons

/-- Spec wording of the amended flagging rule for C8: days since the
latest evidence above 21, or the stale share of the dated evidence,
rounded to a whole percentage (ties to even), above 50, or a committed
decision with strength below 40. -/
def specFlagCondition (st : Staleness) (strength : ℚ) (status : String) : Prop :=
  st.days_since_latest.getD 0 > 21 ∨ st.stale_percentage > 50 ∨
  (status = "commit" ∧ strength < 40)

lemma checkFlagConditions_ne_nil_iff (st : Staleness) (strength : ℚ) (status : String) :
    checkFlagConditions st strength status ≠ [] ↔ specFlagCondition st strength status := by
  rw [checkFlagConditions, specFlagCondition]
  rcases st.days_since_latest with _ | d
  · simp only [Option.getD_none, List.nil_append]
    constructor
    · intro h
      by_cases h2 : st.stale_percentage > 50
      · exact Or.inr (Or.inl h2)
      · rw [if_neg h2, List.nil_append] at h
        by_cases h3 : strength < 40 ∧ status = "commit"
        · exact Or.inr (Or.inr ⟨h3.2, h3.1⟩)
        · rw [if_neg h3] at h
          exact absurd rfl h
    · rintro (h | h | h)
      · exact absurd h (by norm_num)
      · intro hc
        obtain ⟨hc1, _⟩ := List.append_eq_nil.mp hc
        rw [if_pos h] at hc1
        exact List.cons_ne_nil _ _ hc1
      · intro hc
        obtain ⟨_, hc2⟩ := List.append_eq_nil.mp hc
        rw [if_pos ⟨h.2, h.1⟩] at hc2
        exact List.cons_ne_nil _ _ hc2
  · simp only [Option.getD_some]
    constructor
    · intro h
      by_cases h1 : d ≠ 0 ∧ d > 21
      · exact Or.inl h1.2
      · rw [if_neg h1, List.nil_append] at h
        by_cases h2 : st.stale_percentage > 50
        · exact Or.inr (Or.inl h2)
        · rw [if_neg h2, List.nil_append] at h
          by_cases h3 : strength < 40 ∧ status = "commit"
          · exact Or.inr (Or.inr ⟨h3.2, h3.1⟩)
          · rw [if_neg h3] at h
            exact absurd rfl h
    · rintro (h | h | h)
      · intro hc
        obtain ⟨hab, _⟩ := List.append_eq_nil.mp hc
        obtain ⟨ha, _⟩ := List.append_eq_nil.mp hab
        rw [if_pos ⟨by omega, h⟩] at ha
        exact List.cons_ne_nil _ _ ha
      · intro hc
        obtain ⟨hab, _⟩ := List.append_eq_nil.mp hc
        obtain ⟨_, hb⟩ := List.append_eq_nil.mp hab
        rw [if_pos h] at hb
        exact List.cons_ne_nil _ _ hb
      · intro hc
        obtain ⟨_, hcc⟩ := List.append_eq_nil.mp hc
        rw [if_pos ⟨h.2, h.1⟩] at hcc
        exact List.cons_ne_nil _ _ hcc

end DecayAgent

namespace DecayAgent

lemma mem_iff_of_ite_singleton {α : Type} [DecidableEq α] (c : Prop) [Decidable c]
    (x a : α) (h : x = a) :
    (x ∈ if c then [a] else []) ↔ c := by
  split_ifs with hc
  · simp [h, hc]
  · simp [hc]

lemma not_mem_ite_singleton {α : Type} [DecidableEq α] (c : Prop) [Decidable c]
    (x a : α) (h : x ≠ a) : x ∉ (if c then [a] else []) := by
  split_ifs with hc
  · simp [h]
  · simp

lemma evidenceOld_mem_iff (st : Staleness) (s : ℚ) (status : String) :
    Reason.evidenceOld (st.days_since_latest.getD 0) ∈ checkFlagConditions st s status
      ↔ st.days_since_latest.getD 0 > 21 := by
  rw [checkFlagConditions]
  rcases st.days_since_latest with _ | d <;>
    simp only [Option.getD_none, Option.getD_some, List.mem_append, List.not_mem_nil]
  · rw [iff_iff_implies_and_implies]
    constructor
    · rintro ((h | h) | h)
      · exact h.elim
      · exact absurd h (not_mem_ite_singleton _ _ _ (by simp))
      · exact absurd h (not_mem_ite_singleton _ _ _ (by simp))
    · intro h
      exact absurd h (by norm_num)
  · rw [iff_iff_implies_and_implies]
    constructor
    · rintro ((h | h) | h)
      · have := (mem_iff_of_ite_singleton _ _ _ rfl).mp h
        exact this.2
      · exact absurd h (not_mem_ite_singleton _ _ _ (by simp))
      · exact absurd h (not_mem_ite_singleton _ _ _ (by simp))
    · intro h
      exact Or.inl (Or.inl ((mem_iff_of_ite_singleton _ _ _ rfl).mpr ⟨by omega, h⟩))

lemma staleShare_mem_iff (st : Staleness) (s : ℚ) (status : String) :
    Reason.staleShare st.stale_percentage ∈ checkFlagConditions st s status
      ↔ st.stale_percentage > 50 := by
  rw [checkFlagConditions]
  have hA : Reason.staleShare st.stale_percentage ∉
      (match st.days_since_latest with
       | some d => if d ≠ 0 ∧ d > 21 then [Reason.evidenceOld d] else []
       | none => []) := by
    cases hds : st.days_since_latest with
    | none => simp only [hds]; exact List.not_mem_nil _
    | some d => simp only [hds]; exact not_mem_ite_singleton _ _ _ (by simp)
  constructor
  · intro h
    rcases List.mem_append.mp h with h1 | h1
    · rcases List.mem_append.mp h1 with h2 | h2
      · exact absurd h2 hA
      · exact (mem_iff_of_ite_singleton _ _ _ rfl).mp h2
    · exact absurd h1 (not_mem_ite_singleton _ _ _ (by simp))
  · intro h
    exact List.mem_append.mpr
      (Or.inl (List.mem_append.mpr (Or.inr ((mem_iff_of_ite_singleton _ _ _ rfl).mpr h))))

lemma weakCommit_mem_iff (st : Staleness) (s : ℚ) (status : String) :
    Reason.weakCommit s ∈ checkFlagConditions st s status
      ↔ (status = "commit" ∧ s < 40) := by
  rw [checkFlagConditions]
  have hA : Reason.weakCommit s ∉
      (match st.days_since_latest with
       | some d => if d ≠ 0 ∧ d > 21 then [Reason.evidenceOld d] else []
       | none => []) := by
    cases hds : st.days_since_latest with
    | none => simp only [hds]; exact List.not_mem_nil _
    | some d => simp only [hds]; exact not_mem_ite_singleton _ _ _ (by simp)
  constructor
  · intro h
    rcases List.mem_append.mp h with h1 | h1
    · rcases List.mem_append.mp h1 with h2 | h2
      · exact absurd h2 hA
      · exact absurd h2 (not_mem_ite_singleton _ _ _ (by simp))
    · have hm := (mem_iff_of_ite_singleton _ _ _ rfl).mp h1
      exact ⟨hm.2, hm.1⟩
  · intro h
    exact List.mem_append.mpr
      (Or.inr ((mem_iff_of_ite_singleton _ _ _ rfl).mpr ⟨h.2, h.1⟩))

lemma classifyDecision_of_dated (links : List ℕ) (items : List Evidence)
    (strength : Option ℚ) (status : String) (now : ℤ)
    (hl : links ≠ []) (hd : (calculateStaleness items now).dates ≠ []) :
    classifyDecision links items strength status now
      = (if checkFlagConditions (calculateStaleness items now)
            (PyModel.orQ strength 0) status = []
         then ItemResult.healthy
         else ItemResult.flagged
           (checkFlagConditions (calculateStaleness items now)
             (PyModel.orQ strength 0) status)) := by
  rw [classifyDecision, if_neg hl, if_neg hd]

end DecayAgent

/-- C7 counterexample: a validating sticky note with one evidence link
whose evidence item has no parseable timestamp at all. The canonical
monitor silently skips the note (the loop continues at line 159-160)
instead of flagging it with the no-dated-evidence reason. -/
theorem c7_counterexample :
    DecayAgent.classifyNote [1] [⟨none, none, some 50⟩] 1000
      = DecayAgent.ItemResult.skipped ∧
    DecayAgent.classifyNote [1] [⟨none, none, some 50⟩] 1000
      ≠ DecayAgent.ItemResult.flagged [DecayAgent.Reason.noDatedEvidence] := by
  constructor <;> decide

/-- C7 amended: in the canonical decay monitor, a monitored DECISION
with at least one evidence link but zero dated evidence items is
flagged with the reason No dated evidence, while a validating sticky
note in the same situation is silently skipped (neither flagged nor
listed healthy); an item with no links at all is flagged with the
distinct no-evidence-linked reason instead. -/
theorem c7_no_dated_evidence :
    (∀ (links : List ℕ) (items : List DecayAgent.Evidence)
        (strength : Option ℚ) (status : String) (now : ℤ),
      links ≠ [] → DecayAgent.stalenessDates items = [] →
      DecayAgent.classifyDecision links items strength status now
        = DecayAgent.ItemResult.flagged [DecayAgent.Reason.noDatedEvidence]) ∧
    (∀ (links : List ℕ) (items : List DecayAgent.Evidence) (now : ℤ),
      links ≠ [] → DecayAgent.stalenessDates items = [] →
      DecayAgent.classifyNote links items now = DecayAgent.ItemResult.skipped) ∧
    (∀ (items : List DecayAgent.Evidence) (strength : Option ℚ) (status : String) (now : ℤ),
      DecayAgent.classifyDecision [] items strength status now
        = DecayAgent.ItemResult.flagged [DecayAgent.Reason.noEvidenceLinked]) ∧
    (∀ (items : List DecayAgent.Evidence) (now : ℤ),
      DecayAgent.classifyNote [] items now
        = DecayAgent.ItemResult.flagged [DecayAgent.Reason.validatingNoEvidence]) := by
  have hdates : ∀ (items : List DecayAgent.Evidence) (now : ℤ),
      DecayAgent.stalenessDates items = [] →
      (DecayAgent.calculateStaleness items now).dates = [] := by
    intro items now hd
    rw [DecayAgent.calculateStaleness, if_pos hd]
  refine ⟨?_, ?_, ?_, ?_⟩
  · intro links items strength status now hl hd
    rw [DecayAgent.classifyDecision, if_neg hl, if_pos (hdates items now hd)]
  · intro links items now hl hd
    rw [DecayAgent.classifyNote, if_neg hl, if_pos (hdates items now hd)]
  · intro items strength status now
    rw [DecayAgent.classifyDecision, if_pos rfl]
  · intro items now
    rw [DecayAgent.classifyNote, if_pos rfl]

/-- C7 witness: one linked evidence item with neither source_timestamp
nor created_at: the decision is flagged No dated evidence, the note is
skipped. -/
theorem c7_no_dated_evidence_witness :
    (([1] : List ℕ) ≠ []) ∧
    (DecayAgent.stalenessDates [⟨none, none, some 50⟩] = []) ∧
    DecayAgent.classifyDecision [1] [⟨none, none, some 50⟩] (some 50) "commit" 1000
      = DecayAgent.ItemResult.flagged [DecayAgent.Reason.noDatedEvidence] ∧
    DecayAgent.classifyNote [2] [⟨none, none, some 50⟩] 1000
      = DecayAgent.ItemResult.skipped :=
  ⟨by decide, by decide,
   c7_no_dated_evidence.1 [1] [⟨none, none, some 50⟩] (some 50) "commit" 1000
     (by decide) (by decide),
   c7_no_dated_evidence.2.1 [2] [⟨none, none, some 50⟩] 1000 (by decide) (by decide)⟩

/-- C8 amended: for a monitored decision with at least one dated
evidence item, the monitor flags it if and only if days since the
latest evidence exceed 21, or the stale share of the dated items,
rounded to a whole percentage with ties to even, exceeds 50 (the code
compares the ROUNDED integer percentage with 50, not the exact fraction
with one half), or the decision is committed with strength below 40;
and the reason list of a flagged decision contains the age entry, the
stale-share entry and the weak-commit entry exactly for the conditions
that hold. -/
theorem c8_decision_flag_iff (links : List ℕ) (items : List DecayAgent.Evidence)
    (strength : Option ℚ) (status : String) (now : ℤ)
    (hl : links ≠ [])
    (hd : (DecayAgent.calculateStaleness items now).dates ≠ []) :
    ((∃ rs, DecayAgent.classifyDecision links items strength status now
        = DecayAgent.ItemResult.flagged rs) ↔
      DecayAgent.specFlagCondition (DecayAgent.calculateStaleness items now)
        (PyModel.orQ strength 0) status) ∧
    (∀ rs, DecayAgent.classifyDecision links items strength status now
        = DecayAgent.ItemResult.flagged rs →
      ((DecayAgent.Reason.evidenceOld
          ((DecayAgent.calculateStaleness items now).days_since_latest.getD 0) ∈ rs ↔
        (DecayAgent.calculateStaleness items now).days_since_latest.getD 0 > 21) ∧
       (DecayAgent.Reason.staleShare
          (DecayAgent.calculateStaleness items now).stale_percentage ∈ rs ↔
        (DecayAgent.calculateStaleness items now).stale_percentage > 50) ∧
       (DecayAgent.Reason.weakCommit (PyModel.orQ strength 0) ∈ rs ↔
        (status = "commit" ∧ PyModel.orQ strength 0 < 40)))) := by
  have hcl := DecayAgent.classifyDecision_of_dated links items strength status now hl hd
  constructor
  · constructor
    · rintro ⟨rs, hrs⟩
      rw [hcl] at hrs
      by_cases hRn : DecayAgent.checkFlagConditions (DecayAgent.calculateStaleness items now)
          (PyModel.orQ strength 0) status = []
      · rw [if_pos hRn] at hrs
        exact absurd hrs (by simp)
      · exact (DecayAgent.checkFlagConditions_ne_nil_iff _ _ _).mp hRn
    · intro hspec
      have hRn := (DecayAgent.checkFlagConditions_ne_nil_iff
        (DecayAgent.calculateStaleness items now) (PyModel.orQ strength 0) status).mpr hspec
      refine ⟨DecayAgent.checkFlagConditions (DecayAgent.calculateStaleness items now)
        (PyModel.orQ strength 0) status, ?_⟩
      rw [hcl, if_neg hRn]
  · intro rs hrs
    rw [hcl] at hrs
    by_cases hRn : DecayAgent.checkFlagConditions (DecayAgent.calculateStaleness items now)
        (PyModel.orQ strength 0) status = []
    · rw [if_pos hRn] at hrs
      exact absurd hrs (by simp)
    · rw [if_neg hRn] at hrs
      have hrseq : rs = DecayAgent.checkFlagConditions
          (DecayAgent.calculateStaleness items now) (PyModel.orQ strength 0) status := by
        injection hrs with h
        exact h.symm
      subst hrseq
      exact ⟨DecayAgent.evidenceOld_mem_iff _ _ _,
             DecayAgent.staleShare_mem_iff _ _ _,
             DecayAgent.weakCommit_mem_iff _ _ _⟩

/-- C8 witness: the spec example, a decision whose only evidence is 100
days old, is flagged. -/
theorem c8_decision_flag_iff_witness :
    (([1] : List ℕ) ≠ []) ∧
    ((DecayAgent.calculateStaleness [⟨some 900, none, some 80⟩] 1000).dates ≠ []) ∧
    (∃ rs, DecayAgent.classifyDecision [1] [⟨some 900, none, some 80⟩]
        (some 80) "validate" 1000 = DecayAgent.ItemResult.flagged rs) :=
  ⟨by decide, by decide,
   (c8_decision_flag_iff [1] [⟨some 900, none, some 80⟩] (some 80) "validate" 1000
      (by decide) (by decide)).1.mpr (Or.inl (by decide))⟩

namespace DecayAgent

/-- The C8 counterexample evidence set: 101 dated items, 51 of them 91
days old (older than 90) and 50 fresh, all with strength 50. -/
def ev8 : List Evidence :=
  List.replicate 51 ⟨some 909, none, some 50⟩ ++ List.replicate 50 ⟨some 1000, none, some 50⟩

end DecayAgent

/-- C8 counterexample: with 51 of 101 dated items older than 90 days,
the stale fraction 51/101 exceeds one half, so the claim requires the
decision to be flagged; the code rounds the percentage 50.495 to the
integer 50, compares 50 with 50, and leaves the decision healthy. -/
theorem c8_counterexample :
    DecayAgent.classifyDecision [1] DecayAgent.ev8 (some 50) "validate" 1000
      = DecayAgent.ItemResult.healthy ∧
    ((DecayAgent.oldCount (DecayAgent.stalenessDates DecayAgent.ev8) 1000 : ℚ)
        / ((DecayAgent.stalenessDates DecayAgent.ev8).length : ℚ) > 1/2) := by
  have hne : DecayAgent.stalenessDates DecayAgent.ev8 ≠ [] := by decide
  have hmax : (DecayAgent.stalenessDates DecayAgent.ev8).max? = some 1000 := by decide
  have hold : DecayAgent.oldCount (DecayAgent.stalenessDates DecayAgent.ev8) 1000 = 51 := by
    decide
  have hlen : (DecayAgent.stalenessDates DecayAgent.ev8).length = 101 := by decide
  have hpct : PyModel.roundHalfEven
      ((DecayAgent.oldCount (DecayAgent.stalenessDates DecayAgent.ev8) 1000 : ℚ)
        / ((DecayAgent.stalenessDates DecayAgent.ev8).length : ℚ) * 100) = 50 := by
    rw [hold, hlen]
    refine PyModel.roundHalfEven_eq_low 50 _ ?_ ?_
    · push_cast
      norm_num
    · push_cast
      norm_num
  have hstal : DecayAgent.calculateStaleness DecayAgent.ev8 1000
      = { dates := DecayAgent.stalenessDates DecayAgent.ev8
          days_since_latest := some 0
          stale_percentage := 50
          avg_strength :=
            if DecayAgent.stalenessStrengths DecayAgent.ev8 = [] then 0
            else (DecayAgent.stalenessStrengths DecayAgent.ev8).sum
              / ((DecayAgent.stalenessStrengths DecayAgent.ev8).length : ℚ) } := by
    rw [DecayAgent.calculateStaleness, if_neg hne, hmax]
    simp only [hpct, DecayAgent.Staleness.mk.injEq]
    norm_num
  constructor
  · have hd : (DecayAgent.calculateStaleness DecayAgent.ev8 1000).dates ≠ [] := by
      rw [hstal]
      exact hne
    have hcl := DecayAgent.classifyDecision_of_dated [1] DecayAgent.ev8 (some 50)
      "validate" 1000 (by decide) hd
    have horq : PyModel.orQ (some 50) 0 = 50 := by decide
    rw [hcl, hstal, horq]
    rw [if_pos (by decide)]
  · rw [hold, hlen]
    push_cast
    norm_num

namespace GapNodes

/-! Embedding of the coverage-gap heuristics: gap_analyzer_node
(graphs/nodes/gap_analyzer.py lines 19-116) and the per-note gap scan
analyze_gaps (graphs/session_analysis.py lines 105-136). The Haiku call
of gap_analyzer_node can append up to two extra free-text gap lines when
at least 3 items carry at least one heuristic gap; those lines are an
external input and enter the model as a parameter. -/

/-- The evidence_bank columns read by the gap heuristics. -/
structure Evidence where
  source_system : Option String
  segment : Option String
  computed_strength : Option ℚ
  has_direct_voice : Bool
deriving DecidableEq, Repr

/-- The gap entries of gap_analyzer_node; each constructor is one of
the literal gap strings, with the weak-strength entry carrying the
interpolated average. -/
inductive Gap
  | noEvidenceLinked
  | singleNeedsValidation
  | singleSourceType
  | singleSegment
  | noVoice
  | weakAvg (avg : ℚ)
  | llmSuggested (s : String)
deriving DecidableEq, Repr

/-- The truthy segment tags (both scans filter on if e.get segment). -/
def truthySegments (items : List Evidence) : List String :=
  items.filterMap (fun e =>
    match e.segment with
    | some s => if s = "" then none else some s
    | none => none)

/-- The average strength both scans compute: computed_strength with
default 0, averaged, 0 on the empty list. -/
def avgStrength (items : List Evidence) : ℚ :=
  let strengths := items.map (fun e => e.computed_strength.getD 0)
  if strengths = [] then 0 else strengths.sum / (strengths.length : ℚ)

/-- The four heuristic gap entries of gap_analyzer_node (lines 58-66):
distinct sources (missing source_system counted as unknown) at most 1,
distinct truthy segments at most 1, no direct voice, average strength
below 40. -/
def heuristicGaps (items : List Evidence) : List Gap :=
  (if ((items.map (fun e => e.source_system.getD "unknown")).dedup).length ≤ 1
   then [Gap.singleSourceType] else []) ++
  (if ((truthySegments items).dedup).length ≤ 1 then [Gap.singleSegment] else []) ++
  (if (items.any (fun e => e.has_direct_voice)) = false then [Gap.noVoice] else []) ++
  (if avgStrength items < 40 then [Gap.weakAvg (avgStrength items)] else [])

/-- gap_analyzer_node (gap_analyzer.py lines 19-116): no sticky note
short-circuits to no gaps; no links to the no-evidence gap; at most one
fetched item to the single needs-more-validation gap; otherwise the four
heuristics, plus up to two Haiku lines when at least 3 items have at
least one gap. -/
def gapAnalyzerGaps : Option ℕ → List ℕ → List Evidence → List String → List Gap
  | none, _, _, _ => []
  | some _, links, items, llmLines =>
    if links = [] then [Gap.noEvidenceLinked]
    else if items.length ≤ 1 then [Gap.singleNeedsValidation]
    else
      if 3 ≤ items.length ∧ heuristicGaps items ≠ []
      then heuristicGaps items ++ (llmLines.take 2).map Gap.llmSuggested
      else heuristicGaps items

/-- analyze_gaps (session_analysis.py lines 105-136), per note: the four
condition tags, with missing source_system counted as the question-mark
source; there is no single-item short-circuit here. -/
def analyzeGapsTags (evidence_list : List Evidence) : List String :=
  (if ((evidence_list.map (fun e => e.source_system.getD "?")).dedup).length ≤ 1
   then ["single_source"] else []) ++
  (if ((truthySegments evidence_list).dedup).length ≤ 1 then ["single_segment"] else []) ++
  (if (evidence_list.any (fun e => e.has_direct_voice)) = false then ["no_voice"] else []) ++
  (if avgStrength evidence_list < 40 then ["weak_evidence"] else [])

/-- Tests for the four heuristic gap kinds, used to count entries. -/
def isSingleSourceGap : Gap → Bool
  | Gap.singleSourceType => true
  | _ => false

def isSingleSegmentGap : Gap → Bool
  | Gap.singleSegment => true
  | _ => false

def isNoVoiceGap : Gap → Bool
  | Gap.noVoice => true
  | _ => false

def isWeakAvgGap : Gap → Bool
  | Gap.weakAvg _ => true
  | _ => false

/-- The single evidence item of the C9 counterexample: one interview
item with a segment, direct voice and strength 80. -/
def e1 : Evidence := ⟨some "interview", some "smb", some 80, true⟩

lemma avg_e1 : avgStrength [e1] = 80 := by
  rw [avgStrength]
  have h1 : ([e1].map (fun e => e.computed_strength.getD 0)) = [(80 : ℚ)] := by decide
  rw [h1, if_neg (by decide)]
  norm_num

lemma countP_llm_zero (p : Gap → Bool) (hp : ∀ s, p (Gap.llmSuggested s) = false)
    (l : List String) : (l.map Gap.llmSuggested).countP p = 0 := by
  induction l with
  | nil => rfl
  | cons a t ih =>
      rw [List.map_cons, List.countP_cons, hp a]
      simpa using ih

lemma heuristicGaps_counts (items : List Evidence) :
    ((heuristicGaps items).countP isSingleSourceGap
      = if ((items.map (fun e => e.source_system.getD "unknown")).dedup).length ≤ 1
        then 1 else 0) ∧
    ((heuristicGaps items).countP isSingleSegmentGap
      = if ((truthySegments items).dedup).length ≤ 1 then 1 else 0) ∧
    ((heuristicGaps items).countP isNoVoiceGap
      = if (items.any (fun e => e.has_direct_voice)) = false then 1 else 0) ∧
    ((heuristicGaps items).countP isWeakAvgGap
      = if avgStrength items < 40 then 1 else 0) := by
  rw [heuristicGaps]
  refine ⟨?_, ?_, ?_, ?_⟩ <;>
    split_ifs <;>
    simp [List.countP_append, List.countP_cons, isSingleSourceGap,
      isSingleSegmentGap, isNoVoiceGap, isWeakAvgGap]

lemma analyzeGapsTags_counts (evidence_list : List Evidence) :
    ((analyzeGapsTags evidence_list).count "single_source"
      = if ((evidence_list.map (fun e => e.source_system.getD "?")).dedup).length ≤ 1
        then 1 else 0) ∧
    ((analyzeGapsTags evidence_list).count "single_segment"
      = if ((truthySegments evidence_list).dedup).length ≤ 1 then 1 else 0) ∧
    ((analyzeGapsTags evidence_list).count "no_voice"
      = if (evidence_list.any (fun e => e.has_direct_voice)) = false then 1 else 0) ∧
    ((analyzeGapsTags evidence_list).count "weak_evidence"
      = if avgStrength evidence_list < 40 then 1 else 0) := by
  rw [analyzeGapsTags]
  refine ⟨?_, ?_, ?_, ?_⟩ <;>
    split_ifs <;>
    simp [List.count_append, List.count_cons]

end GapNodes

namespace GapNodes

lemma gapAnalyzer_countP_eq (sid : ℕ) (links : List ℕ) (items : List Evidence)
    (llm : List String) (hl : links ≠ []) (h2 : 2 ≤ items.length)
    (p : Gap → Bool) (hp : ∀ s, p (Gap.llmSuggested s) = false) :
    (gapAnalyzerGaps (some sid) links items llm).countP p
      = (heuristicGaps items).countP p := by
  have hne1 : ¬ (items.length ≤ 1) := by omega
  simp only [gapAnalyzerGaps]
  rw [if_neg hl, if_neg hne1]
  by_cases hex : 3 ≤ items.length ∧ heuristicGaps items ≠ []
  · rw [if_pos hex, List.countP_append, countP_llm_zero p hp, Nat.add_zero]
  · rw [if_neg hex]

end GapNodes

/-- C9 counterexample: on a single-item group (one interview item with a
segment, direct voice and strength 80) the per-note gap scan of the
session-analysis flow reports the two condition tags single_source and
single_segment; it does not short-circuit to a single
needs-more-validation gap, which only the evidence-link gap analyzer
node does. -/
theorem c9_counterexample :
    GapNodes.analyzeGapsTags [GapNodes.e1] = ["single_source", "single_segment"] ∧
    GapNodes.gapAnalyzerGaps (some 1) [1] [GapNodes.e1] []
      = [GapNodes.Gap.singleNeedsValidation] := by
  constructor
  · have hc1 : (([GapNodes.e1].map (fun e => e.source_system.getD "?")).dedup).length ≤ 1 := by
      decide
    have hc2 : ((GapNodes.truthySegments [GapNodes.e1]).dedup).length ≤ 1 := by decide
    have hc3 : ¬ (([GapNodes.e1].any (fun e => e.has_direct_voice)) = false) := by decide
    have hc4 : ¬ (GapNodes.avgStrength [GapNodes.e1] < 40) := by
      rw [GapNodes.avg_e1]
      norm_num
    rw [GapNodes.analyzeGapsTags, if_pos hc1, if_pos hc2, if_neg hc3, if_neg hc4]
    rfl
  · decide

/-- C9 amended: the single-item short-circuit to a lone
needs-more-validation gap exists only in the evidence-link flow's gap
analyzer node; the session-analysis per-note scan applies the four
conditions uniformly with no short-circuit. In both, each satisfied
condition among single-source, single-segment, no-voice and
weak-average contributes exactly one heuristic gap entry (the gap
analyzer node may additionally append up to two reasoning-service
lines when at least 3 items carry at least one gap). -/
theorem c9_gap_heuristics :
    (∀ (sid : ℕ) (links : List ℕ) (items : List GapNodes.Evidence) (llm : List String),
      links ≠ [] → items.length ≤ 1 →
      GapNodes.gapAnalyzerGaps (some sid) links items llm
        = [GapNodes.Gap.singleNeedsValidation]) ∧
    (∀ (sid : ℕ) (links : List ℕ) (items : List GapNodes.Evidence) (llm : List String),
      links ≠ [] → 2 ≤ items.length →
      ((GapNodes.gapAnalyzerGaps (some sid) links items llm).countP GapNodes.isSingleSourceGap
        = if ((items.map (fun e => e.source_system.getD "unknown")).dedup).length ≤ 1
          then 1 else 0) ∧
      ((GapNodes.gapAnalyzerGaps (some sid) links items llm).countP GapNodes.isSingleSegmentGap
        = if ((GapNodes.truthySegments items).dedup).length ≤ 1 then 1 else 0) ∧
      ((GapNodes.gapAnalyzerGaps (some sid) links items llm).countP GapNodes.isNoVoiceGap
        = if (items.any (fun e => e.has_direct_voice)) = false then 1 else 0) ∧
      ((GapNodes.gapAnalyzerGaps (some sid) links items llm).countP GapNodes.isWeakAvgGap
        = if GapNodes.avgStrength items < 40 then 1 else 0)) ∧
    (∀ evidence_list : List GapNodes.Evidence,
      ((GapNodes.analyzeGapsTags evidence_list).count "single_source"
        = if ((evidence_list.map (fun e => e.source_system.getD "?")).dedup).length ≤ 1
          then 1 else 0) ∧
      ((GapNodes.analyzeGapsTags evidence_list).count "single_segment"
        = if ((GapNodes.truthySegments evidence_list).dedup).length ≤ 1 then 1 else 0) ∧
      ((GapNodes.analyzeGapsTags evidence_list).count "no_voice"
        = if (evidence_list.any (fun e => e.has_direct_voice)) = false then 1 else 0) ∧
      ((GapNodes.analyzeGapsTags evidence_list).count "weak_evidence"
        = if GapNodes.avgStrength evidence_list < 40 then 1 else 0)) := by
  refine ⟨?_, ?_, GapNodes.analyzeGapsTags_counts⟩
  · intro sid links items llm hl h1
    simp only [GapNodes.gapAnalyzerGaps]
    rw [if_neg hl, if_pos h1]
  · intro sid links items llm hl h2
    have hc := GapNodes.heuristicGaps_counts items
    refine ⟨?_, ?_, ?_, ?_⟩
    · rw [GapNodes.gapAnalyzer_countP_eq sid links items llm hl h2 _ (fun s => rfl)]
      exact hc.1
    · rw [GapNodes.gapAnalyzer_countP_eq sid links items llm hl h2 _ (fun s => rfl)]
      exact hc.2.1
    · rw [GapNodes.gapAnalyzer_countP_eq sid links items llm hl h2 _ (fun s => rfl)]
      exact hc.2.2.1
    · rw [GapNodes.gapAnalyzer_countP_eq sid links items llm hl h2 _ (fun s => rfl)]
      exact hc.2.2.2

/-- C9 witness: the short-circuit applied to the single-item group of
the counterexample, and the count form applied to a two-item group. -/
theorem c9_gap_heuristics_witness :
    (([1] : List ℕ) ≠ []) ∧ (([GapNodes.e1] : List GapNodes.Evidence).length ≤ 1) ∧
    GapNodes.gapAnalyzerGaps (some 1) [1] [GapNodes.e1] ["extra line"]
      = [GapNodes.Gap.singleNeedsValidation] ∧
    (2 ≤ ([GapNodes.e1, ⟨some "survey", none, some 20, false⟩] : List GapNodes.Evidence).length) ∧
    ((GapNodes.gapAnalyzerGaps (some 1) [1]
        [GapNodes.e1, ⟨some "survey", none, some 20, false⟩] []).countP
          GapNodes.isSingleSourceGap
      = if (([GapNodes.e1, ⟨some "survey", none, some 20, false⟩].map
            (fun e => e.source_system.getD "unknown")).dedup).length ≤ 1
        then 1 else 0) :=
  ⟨by decide, by decide,
   c9_gap_heuristics.1 1 [1] [GapNodes.e1] ["extra line"] (by decide) (by decide),
   by decide,
   (c9_gap_heuristics.2.1 1 [1] [GapNodes.e1, ⟨some "survey", none, some 20, false⟩] []
      (by decide) (by decide)).1⟩
